import Mathlib

/-!
Verification of the `gcp_auth` library core against its specification.

The Rust sources are shallowly embedded: instants are modelled as integer
numbers of seconds (`Int`), byte strings as `List Nat`, fallible operations
as `Except`, and the effects of external collaborators (the HTTP transport,
the filesystem, `serde_json`, the RSA signer, subprocess execution) as
explicit parameters holding their outcomes.
-/

namespace GcpAuth

/-! ## Errors (src/lib.rs `enum Error`, src/error.rs)

External crates' opaque error payloads (`hyper::Error`, `std::io::Error`,
`serde_json::Error`) are modelled as atoms carrying a numeric identity. -/

/-- Opaque payload of a `hyper::Error`. -/
structure HyperErr where
  id : Nat
deriving DecidableEq, Repr

/-- Opaque payload of a `std::io::Error`. -/
structure IoErr where
  id : Nat
deriving DecidableEq, Repr

/-- Opaque payload of a `serde_json::Error`. -/
structure JsonErr where
  id : Nat
deriving DecidableEq, Repr

/-- The library's `Error` enum, restricted to the variants that the claims
under verification exercise. Payload-carrying variants keep their payloads. -/
inductive Error where
  /-- `Error::NoAuthMethod(Box<Error>, Box<Error>, Box<Error>)`: the three
  fields are, in the order the code passes them at the only construction
  site (src/lib.rs:154-158): gcloud error, metadata-server error,
  user-default-credentials error. -/
  | noAuthMethod (first second third : Error)
  /-- `Error::OAuthConnectionError(hyper::Error)` -/
  | oauthConnectionError (err : HyperErr)
  /-- `Error::ServerUnavailable(String)` -/
  | serverUnavailable (msg : String)
  /-- `Error::ParsingError(serde_json::Error)` -/
  | parsingError (err : JsonErr)
  /-- `Error::Str(&'static str)` (message-only errors in the newer modules) -/
  | str (msg : String)
  /-- `Error::Io(&'static str, std::io::Error)` -/
  | io (msg : String) (err : IoErr)
  /-- `Error::Json(&'static str, serde_json::Error)` -/
  | json (msg : String) (err : JsonErr)
  /-- `Error::SignerFailed` -/
  | signerFailed
deriving DecidableEq, Repr

/-! ## Token (src/types.rs)

`OffsetDateTime` instants are modelled as `Int` seconds since the epoch;
`Duration::seconds(n)` is the integer `n`. The ambient clock
(`OffsetDateTime::now_utc()`) is passed explicitly as a `now` argument. -/

/-- `Token` / `InnerToken` (src/types.rs:32-65): an access token string
together with its absolute expiry instant. -/
structure Token where
  access_token : String
  expires_at : Int
deriving DecidableEq, Repr

namespace Token

/-- `Token::from_string` (src/types.rs:38-46):
`expires_at = OffsetDateTime::now_utc() + expires_in`. -/
def from_string (access_token : String) (expires_in : Int) (now : Int) : Token :=
  { access_token, expires_at := now + expires_in }

/-- `Token::has_expired` (src/types.rs:78-80):
`self.inner.expires_at - Duration::seconds(20) <= OffsetDateTime::now_utc()`. -/
def has_expired (t : Token) (now : Int) : Bool :=
  t.expires_at - 20 ≤ now

end Token

/-! # C1 -/

/-- C1: `has_expired()` is true iff `now + 20s ≥ expires_at`; a token built
with `expires_in = D > 20` is not expired immediately after construction, and
is expired at every instant from `D - 20` seconds after construction on. -/
theorem token_expiry_margin (t : Token) (s : String) (D t0 : Int) (hD : 20 < D) :
    (∀ now : Int, t.has_expired now = true ↔ now + 20 ≥ t.expires_at) ∧
    (Token.from_string s D t0).has_expired t0 = false ∧
    (∀ now : Int, t0 + (D - 20) ≤ now →
      (Token.from_string s D t0).has_expired now = true) := by
  refine ⟨fun now => ?_, ?_, fun now h => ?_⟩
  · simp only [Token.has_expired, decide_eq_true_eq, ge_iff_le]
    omega
  · simp only [Token.has_expired, Token.from_string, decide_eq_false_iff_not]
    omega
  · simp only [Token.has_expired, Token.from_string, decide_eq_true_eq]
    omega

/-- Witness for C1 at a concrete token and construction. -/
theorem token_expiry_margin_witness :
    ((Token.mk "t" 50).has_expired 40 = true ↔ (40 : Int) + 20 ≥ 50) ∧
    (Token.from_string "s" 3600 0).has_expired 0 = false ∧
    (Token.from_string "s" 3600 0).has_expired 3580 = true :=
  ⟨(token_expiry_margin (Token.mk "t" 50) "s" 3600 0 (by decide)).1 40,
   (token_expiry_margin (Token.mk "t" 50) "s" 3600 0 (by decide)).2.1,
   (token_expiry_margin (Token.mk "t" 50) "s" 3600 0 (by decide)).2.2 3580 (by decide)⟩

/-! ## Base64 (the `base64` crate's `URL_SAFE` engine)

`general_purpose::URL_SAFE` uses the URL-safe alphabet (`-` and `_`) **with**
`=` padding. The spec-side variant without padding is defined separately
below for the refinement comparison in C3. Bytes are `List Nat` (each < 256
at use sites). -/

/-- The URL-safe base64 alphabet: `A-Z`, `a-z`, `0-9`, `-`, `_`. -/
def base64UrlChar (n : Nat) : Char :=
  if n < 26 then Char.ofNat (65 + n)
  else if n < 52 then Char.ofNat (97 + (n - 26))
  else if n < 62 then Char.ofNat (48 + (n - 52))
  else if n = 62 then '-'
  else '_'

/-- Base64url encoding with `=` padding, as produced by the `base64` crate's
`URL_SAFE` engine (`encode_string` / `encode_config_buf(.., URL_SAFE, ..)`). -/
def encodeB64UrlPad : List Nat → String
  | [] => ""
  | [b1] =>
    String.mk [base64UrlChar (b1 / 4), base64UrlChar (b1 % 4 * 16), '=', '=']
  | [b1, b2] =>
    String.mk [base64UrlChar (b1 / 4), base64UrlChar (b1 % 4 * 16 + b2 / 16),
               base64UrlChar (b2 % 16 * 4), '=']
  | b1 :: b2 :: b3 :: rest =>
    String.mk [base64UrlChar (b1 / 4), base64UrlChar (b1 % 4 * 16 + b2 / 16),
               base64UrlChar (b2 % 16 * 4 + b3 / 64), base64UrlChar (b3 % 64)]
      ++ encodeB64UrlPad rest

/-- Base64url encoding **without** padding. This is the encoding the spec's
words call for ("base64url (no padding)"); it is not what the code produces. -/
def encodeB64UrlNoPad : List Nat → String
  | [] => ""
  | [b1] =>
    String.mk [base64UrlChar (b1 / 4), base64UrlChar (b1 % 4 * 16)]
  | [b1, b2] =>
    String.mk [base64UrlChar (b1 / 4), base64UrlChar (b1 % 4 * 16 + b2 / 16),
               base64UrlChar (b2 % 16 * 4)]
  | b1 :: b2 :: b3 :: rest =>
    String.mk [base64UrlChar (b1 / 4), base64UrlChar (b1 % 4 * 16 + b2 / 16),
               base64UrlChar (b2 % 16 * 4 + b3 / 64), base64UrlChar (b3 % 64)]
      ++ encodeB64UrlNoPad rest

/-- UTF-8 encoding of one character. -/
def utf8EncodeChar (c : Char) : List Nat :=
  let n := c.toNat
  if n < 128 then [n]
  else if n < 2048 then [192 + n / 64, 128 + n % 64]
  else if n < 65536 then [224 + n / 4096, 128 + n / 64 % 64, 128 + n % 64]
  else [240 + n / 262144, 128 + n / 4096 % 64, 128 + n / 64 % 64, 128 + n % 64]

/-- The UTF-8 bytes of a string (`str::as_bytes` in Rust). -/
def strBytes (s : String) : List Nat :=
  (s.data.map utf8EncodeChar).flatten

/-! ## JWT claims (src/custom_service_account.rs:148-197) -/

/-- `ApplicationCredentials` (src/custom_service_account.rs:199-209). -/
structure ApplicationCredentials where
  project_id : Option String
  private_key : String
  client_email : String
  token_uri : String
deriving DecidableEq, Repr

/-- `Claims` (src/custom_service_account.rs:150-158). -/
structure Claims where
  iss : String
  aud : String
  exp : Int
  iat : Int
  sub : Option String
  scope : String
deriving DecidableEq, Repr

/-- `GOOGLE_RS256_HEAD` (src/custom_service_account.rs:251):
the JSON text `&#123;"alg":"RS256","typ":"JWT"&#125;`. -/
def GOOGLE_RS256_HEAD : String := "\x7b\"alg\":\"RS256\",\"typ\":\"JWT\"\x7d"

/-- The scope-joining loop of `Claims::new`
(src/custom_service_account.rs:166-173): every iteration except the first
(`i != 0`) pushes a single `' '` before appending the scope string. Pushing a
character is rendered as appending its one-character string. -/
def joinScopes : List String → String
  | [] => ""
  | first :: rest => rest.foldl (fun acc s => acc ++ " " ++ s) first

/-- `Claims::new` (src/custom_service_account.rs:160-184). `Utc::now()` is
the explicit `iat` argument. -/
def Claims.new (key : ApplicationCredentials) (scopes : List String)
    (sub : Option String) (iat : Int) : Claims :=
  { iss := key.client_email
    aud := key.token_uri
    exp := iat + 3600 - 5
    iat
    sub
    scope := joinScopes scopes }

/-- Serialization of one JSON string as `serde_json` renders it: quoted, with
`"`, `\\` and control characters escaped. -/
def jsonEscapeChar (c : Char) : String :=
  if c = '"' then "\\\""
  else if c = '\\' then "\\\\"
  else if c = '\n' then "\\n"
  else if c = '\r' then "\\r"
  else if c = '\t' then "\\t"
  else if c = '\x08' then "\\b"
  else if c = '\x0c' then "\\f"
  else if c.toNat < 32 then
    "\\u00" ++ String.mk [(Nat.toDigits 16 (c.toNat / 16)).headD '0',
                          (Nat.toDigits 16 (c.toNat % 16)).headD '0']
  else String.singleton c

/-- A JSON string literal as `serde_json` renders it. -/
def jsonString (s : String) : String :=
  "\"" ++ String.join (s.data.map jsonEscapeChar) ++ "\""

/-- `serde_json::to_string` applied to `Claims` (fields in declaration order;
`Option<&str>` renders as `null` when `None`). -/
def claimsJson (c : Claims) : String :=
  "\x7b\"iss\":" ++ jsonString c.iss
    ++ ",\"aud\":" ++ jsonString c.aud
    ++ ",\"exp\":" ++ toString c.exp
    ++ ",\"iat\":" ++ toString c.iat
    ++ ",\"sub\":" ++ (match c.sub with | none => "null" | some s => jsonString s)
    ++ ",\"scope\":" ++ jsonString c.scope
    ++ "\x7d"

/-- `Claims::to_jwt` (src/custom_service_account.rs:186-196). The RSA signer
(`Signer::sign`, an external `ring` operation over the key material) is the
explicit `sign` parameter, returning the signature bytes or failing. -/
def Claims.to_jwt (c : Claims) (sign : List Nat → Except Error (List Nat)) :
    Except Error String :=
  let jwt := encodeB64UrlPad (strBytes GOOGLE_RS256_HEAD) ++ "."
      ++ encodeB64UrlPad (strBytes (claimsJson c))
  match sign (strBytes jwt) with
  | .error e => .error e
  | .ok signature => .ok (jwt ++ "." ++ encodeB64UrlPad signature)

/-- The assertion the spec's words describe: identical except that every
segment uses base64url **without** padding. Used only to compare against
`Claims.to_jwt` in C3. -/
def Claims.to_jwt_specNoPad (c : Claims) (sign : List Nat → Except Error (List Nat)) :
    Except Error String :=
  let jwt := encodeB64UrlNoPad (strBytes GOOGLE_RS256_HEAD) ++ "."
      ++ encodeB64UrlNoPad (strBytes (claimsJson c))
  match sign (strBytes jwt) with
  | .error e => .error e
  | .ok signature => .ok (jwt ++ "." ++ encodeB64UrlNoPad signature)

/-- The separator-prepending fold of `joinScopes` coincides with the
accumulator loop of `String.intercalate`. -/
lemma joinScopes_foldl_eq_go (rest : List String) (acc : String) :
    rest.foldl (fun acc s => acc ++ " " ++ s) acc = String.intercalate.go acc " " rest := by
  induction rest generalizing acc with
  | nil => rfl
  | cons a as ih =>
    rw [List.foldl_cons, String.intercalate.go]
    exact ih _

/-- `joinScopes` joins by single ASCII spaces. -/
lemma joinScopes_eq_intercalate (scopes : List String) :
    joinScopes scopes = String.intercalate " " scopes := by
  cases scopes with
  | nil => rfl
  | cons first rest => exact joinScopes_foldl_eq_go rest first

/-! # C4 -/

/-- C4: for every key, scope list, optional subject and clock value, the
claims built by `Claims::new` have `iss` equal to the key's `client_email`,
`scope` equal to the scopes joined by single ASCII spaces, and
`exp - iat = 3595`. -/
theorem claims_new_shape (key : ApplicationCredentials) (scopes : List String)
    (sub : Option String) (iat : Int) :
    (Claims.new key scopes sub iat).iss = key.client_email ∧
    (Claims.new key scopes sub iat).scope = String.intercalate " " scopes ∧
    (Claims.new key scopes sub iat).exp - (Claims.new key scopes sub iat).iat = 3595 := by
  refine ⟨rfl, joinScopes_eq_intercalate scopes, ?_⟩
  show iat + 3600 - 5 - iat = 3595
  ring

/-! # C3 -/

/-- A concrete service-account key for evaluating the JWT pipeline. -/
def sampleKey : ApplicationCredentials :=
  { project_id := none, private_key := "k", client_email := "a", token_uri := "b" }

/-- Claims for `sampleKey`, no scopes, no subject, clock at 0. -/
def sampleClaims : Claims := Claims.new sampleKey [] none 0

/-- A signer outcome producing the one-byte signature `[0]`. -/
def sampleSign : List Nat → Except Error (List Nat) := fun _ => .ok [0]

/-- C3 counterexample: at a concrete key and claim set the produced JWT is
**not** the unpadded-base64url assembly the claim describes: the claims and
signature segments end in `=` padding characters. -/
theorem to_jwt_padding_counterexample :
    Claims.to_jwt sampleClaims sampleSign =
      .ok ("eyJhbGciOiJSUzI1NiIsInR5cCI6IkpXVCJ9.eyJpc3MiOiJhIiwiYXVkIjoiYiIsImV4cCI6MzU5NSwiaWF0IjowLCJzdWIiOm51bGwsInNjb3BlIjoiIn0=.AA==") ∧
    '=' ∈ ("eyJhbGciOiJSUzI1NiIsInR5cCI6IkpXVCJ9.eyJpc3MiOiJhIiwiYXVkIjoiYiIsImV4cCI6MzU5NSwiaWF0IjowLCJzdWIiOm51bGwsInNjb3BlIjoiIn0=.AA==").data ∧
    Claims.to_jwt_specNoPad sampleClaims sampleSign =
      .ok ("eyJhbGciOiJSUzI1NiIsInR5cCI6IkpXVCJ9.eyJpc3MiOiJhIiwiYXVkIjoiYiIsImV4cCI6MzU5NSwiaWF0IjowLCJzdWIiOm51bGwsInNjb3BlIjoiIn0.AA") ∧
    ("eyJhbGciOiJSUzI1NiIsInR5cCI6IkpXVCJ9.eyJpc3MiOiJhIiwiYXVkIjoiYiIsImV4cCI6MzU5NSwiaWF0IjowLCJzdWIiOm51bGwsInNjb3BlIjoiIn0=.AA==" : String) ≠
      "eyJhbGciOiJSUzI1NiIsInR5cCI6IkpXVCJ9.eyJpc3MiOiJhIiwiYXVkIjoiYiIsImV4cCI6MzU5NSwiaWF0IjowLCJzdWIiOm51bGwsInNjb3BlIjoiIn0.AA" := by
  exact ⟨rfl, by decide, rfl, by decide⟩

/-- C3 amended: for every claim set and signer, when the signer succeeds the
produced assertion is `b64pad(header JSON) ++ "." ++ b64pad(claims JSON) ++
"." ++ b64pad(signature)`, the signature being taken over the UTF-8 bytes of
`header_b64 ++ "." ++ claims_b64` — base64url **with** `=` padding (the
`URL_SAFE` engine), not the unpadded variant; the header segment matches the
canonical RS256 header encoding. -/
theorem to_jwt_structure (c : Claims) (sign : List Nat → Except Error (List Nat))
    (sig : List Nat)
    (h : sign (strBytes (encodeB64UrlPad (strBytes GOOGLE_RS256_HEAD) ++ "."
        ++ encodeB64UrlPad (strBytes (claimsJson c)))) = .ok sig) :
    Claims.to_jwt c sign =
      .ok (encodeB64UrlPad (strBytes GOOGLE_RS256_HEAD) ++ "."
        ++ encodeB64UrlPad (strBytes (claimsJson c)) ++ "."
        ++ encodeB64UrlPad sig) ∧
    encodeB64UrlPad (strBytes GOOGLE_RS256_HEAD) = "eyJhbGciOiJSUzI1NiIsInR5cCI6IkpXVCJ9" := by
  constructor
  · simp only [Claims.to_jwt, h]
  · decide

/-- Witness for C3's amended theorem at the concrete sample inputs. -/
theorem to_jwt_structure_witness :
    Claims.to_jwt sampleClaims sampleSign =
      .ok (encodeB64UrlPad (strBytes GOOGLE_RS256_HEAD) ++ "."
        ++ encodeB64UrlPad (strBytes (claimsJson sampleClaims)) ++ "."
        ++ encodeB64UrlPad [0]) ∧
    encodeB64UrlPad (strBytes GOOGLE_RS256_HEAD) = "eyJhbGciOiJSUzI1NiIsInR5cCI6IkpXVCJ9" :=
  to_jwt_structure sampleClaims sampleSign [0] rfl

/-! ## Provider discovery (src/lib.rs:123-159 `provider`)

The four credential sources are external effects; each probe's outcome is an
explicit argument. Successfully constructed providers are opaque handles
(`Nat`). `HttpClient::new()` (built before the user-default probe) can also
fail and is passed as an outcome. -/

/-- The provider `provider()` returns, tagged by which source produced it. -/
inductive Chosen where
  | custom (p : Nat)
  | configDefault (p : Nat)
  | metadata (p : Nat)
  | gcloud (p : Nat)
deriving DecidableEq, Repr

/-- `provider()` (src/lib.rs:123-159): try `CustomServiceAccount::from_env`
(propagating its error via `?`), then build the HTTP client, then probe
`ConfigDefaultCredentials::new`, `MetadataServiceAccount::new` and
`GCloudAuthorizedUser::new` in order, returning the first success; if all
three probes fail, return
`Error::NoAuthMethod(gcloud_error, default_service_error, default_user_error)`. -/
def provider (env : Except Error (Option Nat)) (client : Except Error Unit)
    (user metadata gcloud : Except Error Nat) : Except Error Chosen :=
  match env with
  | .error e => .error e
  | .ok (some p) => .ok (.custom p)
  | .ok none =>
    match client with
    | .error e => .error e
    | .ok () =>
      match user with
      | .ok p => .ok (.configDefault p)
      | .error default_user_error =>
        match metadata with
        | .ok p => .ok (.metadata p)
        | .error default_service_error =>
          match gcloud with
          | .ok p => .ok (.gcloud p)
          | .error gcloud_error =>
            .error (.noAuthMethod gcloud_error default_service_error default_user_error)

/-- A concrete user-default-credentials probe failure. -/
def userProbeErr : Error := .str "user-default failed"

/-- A concrete metadata-server probe failure. -/
def metadataProbeErr : Error := .str "metadata failed"

/-- A concrete gcloud probe failure. -/
def gcloudProbeErr : Error := .str "gcloud failed"

/-! # C2 -/

/-- C2 counterexample: when all probes fail, the composite error's fields are
`(gcloud, metadata, user-default)` — the reverse of the
`(user-default, metadata, gcloud)` order the claim states. -/
theorem provider_error_order_counterexample :
    provider (.ok none) (.ok ()) (.error userProbeErr) (.error metadataProbeErr)
        (.error gcloudProbeErr)
      = .error (.noAuthMethod gcloudProbeErr metadataProbeErr userProbeErr) ∧
    Error.noAuthMethod gcloudProbeErr metadataProbeErr userProbeErr ≠
      Error.noAuthMethod userProbeErr metadataProbeErr gcloudProbeErr := by
  exact ⟨rfl, by decide⟩

/-- C2 amended: `provider()` probes the sources in the order env-credentials
file, user-default credentials file, metadata server, gcloud CLI, and returns
the first that constructs successfully (an env-file error propagates
immediately without falling through); if the last three all fail, it returns
`NoAuthMethod` whose sub-errors are ordered gcloud, metadata, user-default. -/
theorem provider_probe_order (e eu em eg : Error) (p : Nat)
    (client : Except Error Unit) (user metadata gcloud : Except Error Nat) :
    provider (.error e) client user metadata gcloud = .error e ∧
    provider (.ok (some p)) client user metadata gcloud = .ok (.custom p) ∧
    provider (.ok none) (.ok ()) (.ok p) metadata gcloud = .ok (.configDefault p) ∧
    provider (.ok none) (.ok ()) (.error eu) (.ok p) gcloud = .ok (.metadata p) ∧
    provider (.ok none) (.ok ()) (.error eu) (.error em) (.ok p) = .ok (.gcloud p) ∧
    provider (.ok none) (.ok ()) (.error eu) (.error em) (.error eg)
      = .error (.noAuthMethod eg em eu) :=
  ⟨rfl, rfl, rfl, rfl, rfl, rfl⟩

/-! ## Token-endpoint exchange with retry
(src/default_authorized_user.rs:50-76 `ConfigDefaultCredentials::get_token`,
src/util.rs:13-37 `HyperExt::deserialize`) -/

/-- An HTTP response: status code and body text. `hyper::Response` carries
bytes; the claims only inspect the body through strings. -/
structure Resp where
  status : Nat
  body : String
deriving DecidableEq, Repr

/-- `StatusCode::is_success`: a 2xx status. -/
def statusIsSuccess (status : Nat) : Bool :=
  200 ≤ status ∧ status < 300

/-- `HyperExt::deserialize` (src/util.rs:13-37): a non-2xx response becomes
`Error::ServerUnavailable` carrying the formatted status and body; a 2xx body
is JSON-deserialized (`serde_json::from_slice`, the explicit `parse`
parameter; `hyper`'s status `Display` is modelled as the numeric code). -/
def deserializeResp (parse : String → Except JsonErr Token) (r : Resp) :
    Except Error Token :=
  if ¬ statusIsSuccess r.status then
    .error (.serverUnavailable
      ("Server responded with error " ++ toString r.status ++ ": " ++ r.body))
  else
    match parse r.body with
    | .error e => .error (.parsingError e)
    | .ok t => .ok t

/-- `RETRY_COUNT` (src/default_authorized_user.rs:122). -/
def RETRY_COUNT : Nat := 5

/-- The retry loop of `ConfigDefaultCredentials::get_token`
(src/default_authorized_user.rs:50-76), from a given `retries` count. The
transport (`client.request`) outcome of each attempt is `attempt n`. On a
transport error the counter increments and, once it reaches `RETRY_COUNT`,
the last transport error is returned as `Error::OAuthConnectionError`; a
received response is handed to `deserialize` and never retried. -/
def getTokenFrom (attempt : Nat → Except HyperErr Resp)
    (parse : String → Except JsonErr Token) (retries : Nat) : Except Error Token :=
  match attempt retries with
  | .ok response => deserializeResp parse response
  | .error err =>
    if h : retries + 1 ≥ RETRY_COUNT then .error (.oauthConnectionError err)
    else getTokenFrom attempt parse (retries + 1)
termination_by RETRY_COUNT - retries
decreasing_by simp only [RETRY_COUNT] at *; omega

/-- `ConfigDefaultCredentials::get_token`: the loop starting at `retries = 0`. -/
def getToken (attempt : Nat → Except HyperErr Resp)
    (parse : String → Except JsonErr Token) : Except Error Token :=
  getTokenFrom attempt parse 0

/-- Unfolding: a transport failure below the retry limit moves to the next
attempt. -/
lemma getTokenFrom_retry (attempt : Nat → Except HyperErr Resp)
    (parse : String → Except JsonErr Token) (r : Nat) (e : HyperErr)
    (ha : attempt r = .error e) (hr : r + 1 < RETRY_COUNT) :
    getTokenFrom attempt parse r = getTokenFrom attempt parse (r + 1) := by
  rw [getTokenFrom, ha]
  simp only [ge_iff_le]
  rw [dif_neg (by omega)]

/-- Unfolding: an arriving response is deserialized, ending the loop. -/
lemma getTokenFrom_response (attempt : Nat → Except HyperErr Resp)
    (parse : String → Except JsonErr Token) (r : Nat) (resp : Resp)
    (ha : attempt r = .ok resp) :
    getTokenFrom attempt parse r = deserializeResp parse resp := by
  rw [getTokenFrom, ha]

/-- Unfolding: the fifth consecutive transport failure aborts with the last
transport error. -/
lemma getTokenFrom_exhausted (attempt : Nat → Except HyperErr Resp)
    (parse : String → Except JsonErr Token) (e : HyperErr)
    (ha : attempt 4 = .error e) :
    getTokenFrom attempt parse 4 = .error (.oauthConnectionError e) := by
  rw [getTokenFrom, ha]
  rfl

/-- If every attempt before `k` fails in transport, the loop from 0 reaches
the state `k` (for `k < RETRY_COUNT`). -/
lemma getToken_reaches (attempt : Nat → Except HyperErr Resp)
    (parse : String → Except JsonErr Token) (errs : Nat → HyperErr) (k : Nat)
    (hk : k < RETRY_COUNT)
    (hfail : ∀ i, i < k → attempt i = .error (errs i)) :
    getToken attempt parse = getTokenFrom attempt parse k := by
  induction k with
  | zero => rfl
  | succ n ih =>
    rw [ih (by omega) (fun i hi => hfail i (by omega))]
    exact getTokenFrom_retry attempt parse n (errs n) (hfail n (by omega)) hk

/-! # C5 -/

/-- C5: transport failures are retried up to 5 attempts total, and if all 5
fail the call returns the last transport error; a response that arrives with
a non-2xx status at any attempt `k < 5` is never retried and is returned as
`ServerUnavailable` carrying the status and body; a 2xx response at any
attempt `k < 5` ends the loop in deserialization. -/
theorem get_token_retry_semantics (attempt : Nat → Except HyperErr Resp)
    (parse : String → Except JsonErr Token) (errs : Nat → HyperErr) (k : Nat)
    (resp : Resp) (hk : k < 5)
    (hfail : ∀ i, i < k → attempt i = .error (errs i)) :
    ((∀ i, i < 5 → attempt i = .error (errs i)) →
      getToken attempt parse = .error (.oauthConnectionError (errs 4))) ∧
    (attempt k = .ok resp → statusIsSuccess resp.status = false →
      getToken attempt parse = .error (.serverUnavailable
        ("Server responded with error " ++ toString resp.status ++ ": " ++ resp.body))) ∧
    (attempt k = .ok resp → getToken attempt parse = deserializeResp parse resp) := by
  refine ⟨fun hall => ?_, fun hok hbad => ?_, fun hok => ?_⟩
  · rw [getToken_reaches attempt parse errs 4 (by decide)
      (fun i hi => hall i (by omega))]
    exact getTokenFrom_exhausted attempt parse (errs 4) (hall 4 (by decide))
  · rw [getToken_reaches attempt parse errs k hk hfail,
      getTokenFrom_response attempt parse k resp hok]
    unfold deserializeResp
    rw [hbad]
    simp
  · rw [getToken_reaches attempt parse errs k hk hfail]
    exact getTokenFrom_response attempt parse k resp hok

/-- Witness for C5: five straight transport failures return the fifth
transport error; two transport failures then a 404 at attempt 2 return the
404's status and body without further retries. -/
theorem get_token_retry_semantics_witness :
    getToken (fun n => .error ⟨n⟩) (fun _ => .error ⟨0⟩)
      = .error (.oauthConnectionError ⟨4⟩) ∧
    getToken (fun n => if n < 2 then .error ⟨n⟩ else .ok ⟨404, "nope"⟩)
        (fun _ => .error ⟨0⟩)
      = .error (.serverUnavailable "Server responded with error 404: nope") :=
  ⟨(get_token_retry_semantics (fun n => .error ⟨n⟩) (fun _ => .error ⟨0⟩)
      (fun n => ⟨n⟩) 0 ⟨404, "nope"⟩ (by decide) (by omega)).1
      (fun i _ => rfl),
   (get_token_retry_semantics (fun n => if n < 2 then .error ⟨n⟩ else .ok ⟨404, "nope"⟩)
      (fun _ => .error ⟨0⟩) (fun n => ⟨n⟩) 2 ⟨404, "nope"⟩ (by decide)
      (fun i hi => by interval_cases i <;> rfl)).2.1 rfl rfl⟩

/-! ## External-account subject tokens (src/external_account.rs:51-109)

`serde_json::Value` is modelled by `Json`; `serde_json::from_str` (an
external crate) is the explicit `parse` parameter. The filesystem read
(`tokio::fs::read_to_string`) and the URL fetch (`client.request` plus
`String::from_utf8_lossy`) are explicit outcome parameters. Rust's
`str::trim` is modelled over the ASCII whitespace characters. -/

/-- A JSON value (`serde_json::Value`; numbers restricted to integers, which
the claims never inspect). -/
inductive Json where
  | null
  | bool (b : Bool)
  | num (n : Int)
  | str (s : String)
  | arr (xs : List Json)
  | obj (fields : List (String × Json))

/-- `serde_json::Value::get` with a string index: field lookup on objects,
`None` on everything else. -/
def Json.get (j : Json) (key : String) : Option Json :=
  match j with
  | .obj fields => (fields.find? (fun kv => kv.1 = key)).map (·.2)
  | _ => none

/-- `serde_json::Value::as_str`. -/
def Json.as_str : Json → Option String
  | .str s => some s
  | _ => none

/-- Whitespace as trimmed by `str::trim` (restricted to its ASCII subset,
which is all the sources ever contain). -/
def isWsChar (c : Char) : Bool :=
  c = ' ' ∨ c = '\t' ∨ c = '\r' ∨ c = '\n'

/-- `str::trim`: remove leading and trailing whitespace. -/
def trimStr (s : String) : String :=
  String.mk (((s.data.dropWhile isWsChar).reverse.dropWhile isWsChar).reverse)

/-- The `format` member of an external account's credential source (struct
fields as used by src/external_account.rs:90-109). -/
structure SubjectTokenFormat where
  format_type : String
  subject_token_field_name : Option String
deriving DecidableEq, Repr

/-- An external account's `credential_source` (fields as used by
src/external_account.rs:51-87). -/
structure ExternalCredentialSource where
  file : Option String
  url : Option String
  headers : Option (List (String × String))
  format : Option SubjectTokenFormat

/-- `ExternalAccount::extract_token` (src/external_account.rs:90-109): when
`format.type == "json"`, parse the response and extract the field named by
`subject_token_field_name` (defaulting to `"access_token"`) as a string;
any other (or absent) format returns the response unchanged. -/
def extract_token (parse : String → Except JsonErr Json)
    (format : Option SubjectTokenFormat) (response : String) : Except Error String :=
  match format with
  | some f =>
    if f.format_type = "json" then
      let field_name := f.subject_token_field_name.getD "access_token"
      match parse response with
      | .error e => .error (.json "failed to parse subject token response" e)
      | .ok j =>
        match (j.get field_name).bind Json.as_str with
        | some s => .ok s
        | none => .error (.str "subject_token_field_name not found in response")
    else .ok response
  | none => .ok response

/-- `ExternalAccount::read_subject_token` (src/external_account.rs:51-87):
a `file` source is read and **trimmed** before `extract_token`; a `url`
source's response body is passed to `extract_token` **as received**; with
neither, the configuration is rejected. -/
def read_subject_token (parse : String → Except JsonErr Json)
    (source : ExternalCredentialSource)
    (fileContents : Except IoErr String) (urlBody : Except Error String) :
    Except Error String :=
  match source.file with
  | some _ =>
    match fileContents with
    | .error e => .error (.io "failed to read subject token file" e)
    | .ok token => extract_token parse source.format (trimStr token)
  | none =>
    match source.url with
    | some _ =>
      match urlBody with
      | .error e => .error e
      | .ok body => extract_token parse source.format body
    | none => .error (.str "external account credential_source must have 'file' or 'url'")

/-- A credential source reading its subject token from a URL, with no
`format` member. -/
def urlTextSource : ExternalCredentialSource :=
  { file := none, url := some "https://sts.example/token", headers := none,
    format := none }

/-- A JSON parse outcome that always fails (never consulted in the text
branches). -/
def parseNever : String → Except JsonErr Json := fun _ => .error ⟨0⟩

/-! # C9 -/

/-- C9 counterexample: for a URL credential source without a `json` format,
a response body with trailing whitespace is used as the subject token
**untrimmed**, while the claim says the trimmed body is used. -/
theorem read_subject_token_url_untrimmed_counterexample :
    read_subject_token parseNever urlTextSource (.error ⟨0⟩) (.ok "tok\n")
      = .ok "tok\n" ∧
    trimStr "tok\n" = "tok" ∧
    (Except.ok "tok\n" : Except Error String) ≠ .ok "tok" := by
  refine ⟨rfl, by decide, fun h => absurd (Except.ok.inj h) (by decide)⟩

/-- C9 amended: a `file` source's contents are trimmed of surrounding
whitespace and then processed by `format`; a `url` source's body is processed
by `format` **without** trimming; if `format.type == "json"` the input is
parsed as JSON and the string field named by `subject_token_field_name`
(default `"access_token"`) is extracted; any other format uses the input
itself literally; errors (file read, URL fetch, JSON parse, missing field,
missing source) propagate as shown. -/
theorem read_subject_token_semantics (parse : String → Except JsonErr Json)
    (fpath upath : String) (uopt : Option String)
    (hdrs : Option (List (String × String))) (fmt : Option SubjectTokenFormat)
    (contents body response : String) (e : IoErr) (err : Error)
    (f : SubjectTokenFormat) (j : Json) :
    read_subject_token parse ⟨some fpath, uopt, hdrs, fmt⟩ (.ok contents) (.error err)
      = extract_token parse fmt (trimStr contents) ∧
    read_subject_token parse ⟨some fpath, uopt, hdrs, fmt⟩ (.error e) (.ok body)
      = .error (.io "failed to read subject token file" e) ∧
    read_subject_token parse ⟨none, some upath, hdrs, fmt⟩ (.ok contents) (.ok body)
      = extract_token parse fmt body ∧
    read_subject_token parse ⟨none, some upath, hdrs, fmt⟩ (.ok contents) (.error err)
      = .error err ∧
    read_subject_token parse ⟨none, none, hdrs, fmt⟩ (.ok contents) (.ok body)
      = .error (.str "external account credential_source must have 'file' or 'url'") ∧
    extract_token parse none response = .ok response ∧
    (f.format_type ≠ "json" → extract_token parse (some f) response = .ok response) ∧
    (f.format_type = "json" → parse response = .ok j →
      extract_token parse (some f) response =
        match (j.get (f.subject_token_field_name.getD "access_token")).bind Json.as_str with
        | some s => .ok s
        | none => .error (.str "subject_token_field_name not found in response")) ∧
    (f.format_type = "json" → f.subject_token_field_name = none →
      parse response = .ok j →
      extract_token parse (some f) response =
        match (j.get "access_token").bind Json.as_str with
        | some s => .ok s
        | none => .error (.str "subject_token_field_name not found in response")) := by
  refine ⟨rfl, rfl, rfl, rfl, rfl, rfl, fun hne => ?_, fun hj hp => ?_, fun hj hn hp => ?_⟩
  · simp only [extract_token, if_neg hne]
  · simp only [extract_token, if_pos hj, hp]
  · simp only [extract_token, if_pos hj, hp, hn, Option.getD_none]

/-- Witness for C9's amended theorem: a JSON-format URL source extracting the
default `access_token` field from a concrete object. -/
theorem read_subject_token_semantics_witness :
    extract_token
        (fun s => if s = "resp" then .ok (.obj [("access_token", .str "tok")]) else .error ⟨1⟩)
        (some ⟨"json", none⟩) "resp" = .ok "tok" ∧
    read_subject_token
        (fun s => if s = "resp" then .ok (.obj [("access_token", .str "tok")]) else .error ⟨1⟩)
        ⟨some "/f", none, none, some ⟨"json", none⟩⟩ (.ok " resp") (.error (.str "x"))
      = extract_token
          (fun s => if s = "resp" then .ok (.obj [("access_token", .str "tok")]) else .error ⟨1⟩)
          (some ⟨"json", none⟩) (trimStr " resp") := by
  constructor
  · have h := (read_subject_token_semantics
      (fun s => if s = "resp" then .ok (.obj [("access_token", .str "tok")]) else .error ⟨1⟩)
      "/f" "u" none none (some ⟨"json", none⟩) " resp" "b" "resp" ⟨0⟩ (.str "x")
      ⟨"json", none⟩ (.obj [("access_token", .str "tok")])).2.2.2.2.2.2.2.2
      rfl rfl (by rfl)
    rw [h]
    rfl
  · exact (read_subject_token_semantics
      (fun s => if s = "resp" then .ok (.obj [("access_token", .str "tok")]) else .error ⟨1⟩)
      "/f" "u" none none (some ⟨"json", none⟩) " resp" "b" "resp" ⟨0⟩ (.str "x")
      ⟨"json", none⟩ (.obj [("access_token", .str "tok")])).1

/-! ## Token cache, sequential semantics
(src/custom_service_account.rs:120-138 `CustomServiceAccount::token`,
src/config_default_credentials.rs:83-93 `ConfigDefaultCredentials::token`)

One `token()` call by a single caller is a pure step: the cache state comes
in, the (possibly failing) outcome of `fetch_token` is an explicit
parameter, and the call's result and the new cache state come out. The
scope-keyed `HashMap<Vec<String>, Arc<Token>>` is a function
`List String → Option Token`. -/

/-- `HashMap::insert` on the scope-keyed token cache. -/
def insertTok (tokens : List String → Option Token) (scopes : List String)
    (t : Token) : List String → Option Token :=
  fun k => if k = scopes then some t else tokens k

/-- One `CustomServiceAccount::token` call
(src/custom_service_account.rs:120-138): return an unexpired cached token
as-is; otherwise fetch (under the write lock), install the result on
success, and leave the map untouched on failure. -/
def csaToken (tokens : List String → Option Token) (scopes : List String)
    (now : Int) (fetch : Except Error Token) :
    Except Error Token × (List String → Option Token) :=
  match tokens scopes with
  | some token =>
    if ¬ token.has_expired now then (.ok token, tokens)
    else
      match fetch with
      | .error e => (.error e, tokens)
      | .ok t => (.ok t, insertTok tokens scopes t)
  | none =>
    match fetch with
    | .error e => (.error e, tokens)
    | .ok t => (.ok t, insertTok tokens scopes t)

/-- One `ConfigDefaultCredentials::token` call
(src/config_default_credentials.rs:83-93): the provider holds a single token
slot; an unexpired token is returned as-is, otherwise the fetch outcome
either replaces the slot or leaves it unchanged on failure. -/
def cdcToken (cur : Token) (now : Int) (fetch : Except Error Token) :
    Except Error Token × Token :=
  if ¬ cur.has_expired now then (.ok cur, cur)
  else
    match fetch with
    | .error e => (.error e, cur)
    | .ok t => (.ok t, t)

/-! # C7 -/

/-- C7: a failed refresh leaves the cache unchanged for both the scope-keyed
provider (`CustomServiceAccount`) and the single-slot provider
(`ConfigDefaultCredentials`): callers holding a still-unexpired cached token
keep succeeding with it (no fetch is even consulted), and a caller that
needs a fresh token receives exactly the refresh error with the previous
(possibly stale) entry left in place. -/
theorem refresh_failure_preserves_cache (tokens : List String → Option Token)
    (scopes : List String) (now : Int) (e : Error) (t cur : Token) :
    (tokens scopes = some t → t.has_expired now = false →
      ∀ fetch, csaToken tokens scopes now fetch = (.ok t, tokens)) ∧
    (tokens scopes = some t → t.has_expired now = true →
      csaToken tokens scopes now (.error e) = (.error e, tokens)) ∧
    (tokens scopes = none →
      csaToken tokens scopes now (.error e) = (.error e, tokens)) ∧
    (cur.has_expired now = false →
      ∀ fetch, cdcToken cur now fetch = (.ok cur, cur)) ∧
    (cur.has_expired now = true →
      cdcToken cur now (.error e) = (.error e, cur)) := by
  refine ⟨fun hc hv fetch => ?_, fun hc hx => ?_, fun hc => ?_, fun hv fetch => ?_,
    fun hx => ?_⟩
  · simp [csaToken, hc, hv]
  · simp [csaToken, hc, hx]
  · simp [csaToken, hc]
  · simp [cdcToken, hv]
  · simp [cdcToken, hx]

/-- Witness for C7 at a concrete cache: a token expiring at 1000 is served at
time 100 regardless of the fetch outcome, and at time 990 a failing refresh
returns the error with the cache intact. -/
theorem refresh_failure_preserves_cache_witness :
    csaToken (insertTok (fun _ => none) ["s"] ⟨"a", 1000⟩) ["s"] 100
        (.error (.str "down")) = (.ok ⟨"a", 1000⟩, insertTok (fun _ => none) ["s"] ⟨"a", 1000⟩) ∧
    csaToken (insertTok (fun _ => none) ["s"] ⟨"a", 1000⟩) ["s"] 990
        (.error (.str "down")) = (.error (.str "down"), insertTok (fun _ => none) ["s"] ⟨"a", 1000⟩) ∧
    cdcToken ⟨"a", 1000⟩ 990 (.error (.str "down")) = (.error (.str "down"), ⟨"a", 1000⟩) :=
  ⟨(refresh_failure_preserves_cache (insertTok (fun _ => none) ["s"] ⟨"a", 1000⟩)
      ["s"] 100 (.str "down") ⟨"a", 1000⟩ ⟨"a", 1000⟩).1 rfl (by decide) _,
   (refresh_failure_preserves_cache (insertTok (fun _ => none) ["s"] ⟨"a", 1000⟩)
      ["s"] 990 (.str "down") ⟨"a", 1000⟩ ⟨"a", 1000⟩).2.1 rfl (by decide),
   (refresh_failure_preserves_cache (insertTok (fun _ => none) ["s"] ⟨"a", 1000⟩)
      ["s"] 990 (.str "down") ⟨"a", 1000⟩ ⟨"a", 1000⟩).2.2.2.2 (by decide)⟩

/-! ## Sequential call sequences (for C8) -/

/-- The token a successful fetch at instant `now` with server-reported
lifetime `e` produces (`Token::from_string` on the deserialized response:
`expires_at = now + expires_in`). -/
def fetchedTok (now e : Int) : Token := Token.from_string "fetched" e now

/-- Run a sequence of sequential, successful `CustomServiceAccount::token`
calls for one scope set; each call is `(now, expires_in)`: its start instant
and the lifetime the server reports if that call fetches. -/
def runCalls (tokens : List String → Option Token) (scopes : List String) :
    List (Int × Int) → List (Except Error Token)
  | [] => []
  | (now, e) :: rest =>
    (csaToken tokens scopes now (.ok (fetchedTok now e))).1 ::
      runCalls (csaToken tokens scopes now (.ok (fetchedTok now e))).2 scopes rest

/-- After any call, the cache holds exactly the token the call returned. -/
lemma csaToken_result_entry (tokens : List String → Option Token)
    (scopes : List String) (now e : Int) :
    ∃ tok, (csaToken tokens scopes now (.ok (fetchedTok now e))).1 = .ok tok ∧
      (csaToken tokens scopes now (.ok (fetchedTok now e))).2 scopes = some tok := by
  unfold csaToken
  match h : tokens scopes with
  | some token =>
    by_cases hv : token.has_expired now
    · exact ⟨fetchedTok now e, by simp [hv], by simp [hv, insertTok]⟩
    · exact ⟨token, by simp [hv], by simp [hv, h]⟩
  | none =>
    exact ⟨fetchedTok now e, by simp, by simp [insertTok]⟩

/-- When the fetched lifetime is at least the 20-second expiry margin, a
call's returned token never expires before the token previously cached for
the same scope set. -/
lemma csaToken_result_ge (tokens : List String → Option Token)
    (scopes : List String) (now e : Int) (t0 tok : Token)
    (h0 : tokens scopes = some t0) (he : 20 ≤ e)
    (hr : (csaToken tokens scopes now (.ok (fetchedTok now e))).1 = .ok tok) :
    t0.expires_at ≤ tok.expires_at := by
  unfold csaToken at hr
  rw [h0] at hr
  by_cases hv : t0.has_expired now
  · simp [hv] at hr
    have hexp : t0.expires_at - 20 ≤ now := by
      simpa [Token.has_expired] using hv
    rw [← hr]
    simp only [fetchedTok, Token.from_string]
    omega
  · simp [hv] at hr
    rw [← hr]

/-! # C8 -/

/-- C8 counterexample: two sequential successful calls (the second starting
after the first returned, times non-decreasing) where the second fetch's
server-reported lifetime is 5 s: the first call returns a token expiring at
100, the second — fetched because the first is inside the 20 s margin at
time 80 — returns a token expiring at 85 < 100, so `expires_at` decreases. -/
theorem token_monotone_counterexample :
    runCalls (fun _ => none) ["s"] [(0, 100), (80, 5)]
      = [.ok ⟨"fetched", 100⟩, .ok ⟨"fetched", 85⟩] ∧
    ¬ ((85 : Int) ≥ 100) := by
  exact ⟨rfl, by decide⟩

/-- C8 amended: for a sequence of sequential successful `token()` calls on
one provider and scope set, the returned `expires_at` values are
non-decreasing **provided** every fetched token's `expires_in` is at least
the 20-second expiry margin; a server-reported lifetime below 20 s can
produce a strictly smaller `expires_at` than its predecessor. -/
theorem token_monotone_expiry (tokens : List String → Option Token)
    (scopes : List String) (calls : List (Int × Int))
    (hmargin : ∀ p ∈ calls, 20 ≤ p.2) :
    (runCalls tokens scopes calls).Chain'
      (fun a b => ∀ x y, a = .ok x → b = .ok y → x.expires_at ≤ y.expires_at) := by
  induction calls generalizing tokens with
  | nil => exact List.chain'_nil
  | cons p rest ih =>
    obtain ⟨now, e⟩ := p
    rw [runCalls, List.chain'_cons']
    refine ⟨?_, ih _ (fun q hq => hmargin q (List.mem_cons_of_mem _ hq))⟩
    intro y hy x z hx hz
    obtain ⟨tok, hr, hentry⟩ := csaToken_result_entry tokens scopes now e
    rw [hr] at hx
    cases hx
    match rest, hy with
    | (now2, e2) :: rest2, hy =>
      rw [runCalls] at hy
      simp only [List.head?_cons, Option.mem_def, Option.some.injEq] at hy
      subst hy
      exact csaToken_result_ge _ scopes now2 e2 x z hentry
        (hmargin (now2, e2) (by simp)) hz

/-- Witness for C8's amended theorem: the counterexample's call times with
compliant lifetimes (100 s and 30 s) yield non-decreasing expiries. -/
theorem token_monotone_expiry_witness :
    (runCalls (fun _ => none) ["s"] [(0, 100), (80, 30)]).Chain'
      (fun a b => ∀ x y, a = .ok x → b = .ok y → x.expires_at ≤ y.expires_at) :=
  token_monotone_expiry (fun _ => none) ["s"] [(0, 100), (80, 30)] (by decide)

/-! ## Concurrent callers of `CustomServiceAccount::token`
(src/custom_service_account.rs:120-138)

An interleaving semantics for `n` concurrent callers of `token()` for one
shared scope set. Each caller runs the body of `token()`:

* `ready`: about to take the read lock, clone the cache entry, release, and
  test `has_expired` (the instant of the test is arbitrary, so the read step
  is nondeterministic in `now`);
* `waitW`: observed a missing or expired entry and is waiting on
  `self.tokens.write()`;
* `inFetch tok`: holds the write lock while `fetch_token` is in flight
  (`tok` is the predetermined result of this fetch — the `k`-th fetch
  overall returns `fetchResult k`). **No re-check of the cache happens
  between lock acquisition and the fetch**, mirroring the source;
* `done tok`: returned `tok`.

The state counts started fetches in `fetches`. -/

/-- Program counter of one concurrent `token()` caller. -/
inductive CallerPC where
  | ready
  | waitW
  | inFetch (tok : Token)
  | done (tok : Token)
deriving DecidableEq, Repr

/-- Shared state of the provider plus the `n` callers: the single scope
set's cache entry, the `RwLock` write mode, and the fetch counter. -/
structure SysState (n : Nat) where
  threads : Fin n → CallerPC
  cache : Option Token
  writeLocked : Bool
  fetches : Nat

/-- One interleaving step of some caller, with fetch results predetermined
by `fetchResult` (the transport's behaviour). -/
inductive Step (fetchResult : Nat → Token) {n : Nat} :
    SysState n → SysState n → Prop where
  /-- Fast path: the cached entry is present and unexpired; return it. -/
  | readFresh (s : SysState n) (i : Fin n) (now : Int) (tok : Token) :
      s.threads i = .ready → s.cache = some tok → tok.has_expired now = false →
      Step fetchResult s
        ⟨Function.update s.threads i (.done tok), s.cache, s.writeLocked, s.fetches⟩
  /-- The cached entry is present but expired; go wait for the write lock. -/
  | readStale (s : SysState n) (i : Fin n) (now : Int) (tok : Token) :
      s.threads i = .ready → s.cache = some tok → tok.has_expired now = true →
      Step fetchResult s
        ⟨Function.update s.threads i .waitW, s.cache, s.writeLocked, s.fetches⟩
  /-- No cached entry; go wait for the write lock. -/
  | readMiss (s : SysState n) (i : Fin n) :
      s.threads i = .ready → s.cache = none →
      Step fetchResult s
        ⟨Function.update s.threads i .waitW, s.cache, s.writeLocked, s.fetches⟩
  /-- Acquire the free write lock and immediately start `fetch_token` —
  the body does not look at the cache again. -/
  | acquire (s : SysState n) (i : Fin n) :
      s.threads i = .waitW → s.writeLocked = false →
      Step fetchResult s
        ⟨Function.update s.threads i (.inFetch (fetchResult s.fetches)), s.cache,
          true, s.fetches + 1⟩
  /-- The fetch completes: insert the result, release the lock, return. -/
  | finish (s : SysState n) (i : Fin n) (tok : Token) :
      s.threads i = .inFetch tok →
      Step fetchResult s
        ⟨Function.update s.threads i (.done tok), some tok, false, s.fetches⟩

/-- Reachability under `Step`. -/
inductive Reach (fetchResult : Nat → Token) {n : Nat} (s0 : SysState n) :
    SysState n → Prop where
  | refl : Reach fetchResult s0 s0
  | tail {s s' : SysState n} :
      Reach fetchResult s0 s → Step fetchResult s s' → Reach fetchResult s0 s'

/-- `n` callers racing on an empty cache with the lock free. -/
def initState (n : Nat) : SysState n :=
  ⟨fun _ => .ready, none, false, 0⟩

/-- The single-flight invariant: a fetch is in flight only while the write
lock is held, and by at most one caller. -/
def MutexInv {n : Nat} (s : SysState n) : Prop :=
  (∀ i tok, s.threads i = .inFetch tok → s.writeLocked = true) ∧
  (∀ i j tok tok', s.threads i = .inFetch tok → s.threads j = .inFetch tok' → i = j)

/-- Updating a thread to a non-fetching state cannot create a fetching
thread. -/
lemma update_not_inFetch {n : Nat} {f : Fin n → CallerPC} {i j : Fin n}
    {v : CallerPC} {tok : Token} (hv : ∀ t : Token, v ≠ .inFetch t)
    (h : Function.update f i v j = .inFetch tok) : f j = .inFetch tok ∧ j ≠ i := by
  rcases eq_or_ne j i with rfl | hne
  · rw [Function.update_same] at h
    exact absurd h (hv tok)
  · rw [Function.update_noteq hne] at h
    exact ⟨h, hne⟩

lemma step_preserves_mutexInv {n : Nat} {fetchResult : Nat → Token}
    {s s' : SysState n} (h : Step fetchResult s s') (hs : MutexInv s) :
    MutexInv s' := by
  obtain ⟨hlock, huniq⟩ := hs
  cases h with
  | readFresh i now tok hi hc hv =>
    refine ⟨fun j tok' hj => ?_, fun j k tok' tok'' hj hk => ?_⟩ <;>
      dsimp only at hj ⊢
    · exact hlock j tok' (update_not_inFetch (fun t => by simp) hj).1
    · dsimp only at hk
      exact huniq j k tok' tok'' (update_not_inFetch (fun t => by simp) hj).1
        (update_not_inFetch (fun t => by simp) hk).1
  | readStale i now tok hi hc hv =>
    refine ⟨fun j tok' hj => ?_, fun j k tok' tok'' hj hk => ?_⟩ <;>
      dsimp only at hj ⊢
    · exact hlock j tok' (update_not_inFetch (fun t => by simp) hj).1
    · dsimp only at hk
      exact huniq j k tok' tok'' (update_not_inFetch (fun t => by simp) hj).1
        (update_not_inFetch (fun t => by simp) hk).1
  | readMiss i hi hc =>
    refine ⟨fun j tok' hj => ?_, fun j k tok' tok'' hj hk => ?_⟩ <;>
      dsimp only at hj ⊢
    · exact hlock j tok' (update_not_inFetch (fun t => by simp) hj).1
    · dsimp only at hk
      exact huniq j k tok' tok'' (update_not_inFetch (fun t => by simp) hj).1
        (update_not_inFetch (fun t => by simp) hk).1
  | acquire i hi hfree =>
    refine ⟨fun j tok' hj => rfl, fun j k tok' tok'' hj hk => ?_⟩
    dsimp only at hj hk
    have hj' : j = i := by
      by_contra hne
      rw [Function.update_noteq hne] at hj
      exact absurd (hlock j tok' hj) (by simp [hfree])
    have hk' : k = i := by
      by_contra hne
      rw [Function.update_noteq hne] at hk
      exact absurd (hlock k tok'' hk) (by simp [hfree])
    rw [hj', hk']
  | finish i tok hi =>
    refine ⟨fun j tok' hj => ?_, fun j k tok' tok'' hj hk => ?_⟩ <;>
      dsimp only at hj ⊢
    · obtain ⟨hj2, hne⟩ := update_not_inFetch (fun t => by simp) hj
      exact absurd (huniq j i tok' tok hj2 hi) hne
    · obtain ⟨hj2, hne⟩ := update_not_inFetch (fun t => by simp) hj
      exact absurd (huniq j i tok' tok hj2 hi) hne

lemma reach_mutexInv {n : Nat} {fetchResult : Nat → Token} {s : SysState n}
    (h : Reach fetchResult (initState n) s) : MutexInv s := by
  induction h with
  | refl => exact ⟨fun i tok hi => by simp [initState] at hi,
      fun i j tok tok' hi _ => by simp [initState] at hi⟩
  | tail _ hstep ih => exact step_preserves_mutexInv hstep ih

/-! # C6 -/

/-- The result of the `k`-th outbound fetch in the C6 counterexample run:
pairwise distinct tokens. -/
def raceFetch : Nat → Token := fun k => ⟨"t", k⟩

/-- C6 counterexample: two concurrent callers, empty cache. Both observe the
miss, then serially acquire the write lock and **each performs its own
fetch** (the body never re-checks the cache after acquiring the write lock):
the run ends with 2 outbound fetches, not 1, and the callers hold results of
different fetches. -/
theorem single_flight_counterexample :
    Reach raceFetch (initState 2)
      ⟨![.done (raceFetch 0), .done (raceFetch 1)], some (raceFetch 1), false, 2⟩ ∧
    (2 : Nat) ≠ 1 ∧ raceFetch 0 ≠ raceFetch 1 := by
  refine ⟨?_, by decide, by decide⟩
  have s1 : Step raceFetch (initState 2)
      ⟨Function.update (initState 2).threads 0 .waitW, none, false, 0⟩ :=
    Step.readMiss _ 0 rfl rfl
  have s2 : Step raceFetch
      ⟨Function.update (initState 2).threads 0 .waitW, none, false, 0⟩
      ⟨Function.update (Function.update (initState 2).threads 0 .waitW) 1 .waitW,
        none, false, 0⟩ :=
    Step.readMiss _ 1 (by simp [initState, Function.update_noteq]) rfl
  have s3 : Step raceFetch
      ⟨Function.update (Function.update (initState 2).threads 0 .waitW) 1 .waitW,
        none, false, 0⟩
      ⟨Function.update (Function.update (Function.update (initState 2).threads 0 .waitW)
          1 .waitW) 0 (.inFetch (raceFetch 0)), none, true, 1⟩ :=
    Step.acquire _ 0 (by simp [Function.update_noteq]) rfl
  have s4 : Step raceFetch
      ⟨Function.update (Function.update (Function.update (initState 2).threads 0 .waitW)
          1 .waitW) 0 (.inFetch (raceFetch 0)), none, true, 1⟩
      ⟨Function.update (Function.update (Function.update (Function.update
          (initState 2).threads 0 .waitW) 1 .waitW) 0 (.inFetch (raceFetch 0)))
          0 (.done (raceFetch 0)), some (raceFetch 0), false, 1⟩ :=
    Step.finish _ 0 (raceFetch 0) (by simp [Function.update_same])
  have s5 : Step raceFetch
      ⟨Function.update (Function.update (Function.update (Function.update
          (initState 2).threads 0 .waitW) 1 .waitW) 0 (.inFetch (raceFetch 0)))
          0 (.done (raceFetch 0)), some (raceFetch 0), false, 1⟩
      ⟨Function.update (Function.update (Function.update (Function.update
          (Function.update (initState 2).threads 0 .waitW) 1 .waitW)
          0 (.inFetch (raceFetch 0))) 0 (.done (raceFetch 0)))
          1 (.inFetch (raceFetch 1)), some (raceFetch 0), true, 2⟩ :=
    Step.acquire _ 1 (by simp [Function.update_noteq, Function.update_same]) rfl
  have s6 : Step raceFetch
      ⟨Function.update (Function.update (Function.update (Function.update
          (Function.update (initState 2).threads 0 .waitW) 1 .waitW)
          0 (.inFetch (raceFetch 0))) 0 (.done (raceFetch 0)))
          1 (.inFetch (raceFetch 1)), some (raceFetch 0), true, 2⟩
      ⟨Function.update (Function.update (Function.update (Function.update
          (Function.update (Function.update (initState 2).threads 0 .waitW) 1 .waitW)
          0 (.inFetch (raceFetch 0))) 0 (.done (raceFetch 0)))
          1 (.inFetch (raceFetch 1))) 1 (.done (raceFetch 1)),
        some (raceFetch 1), false, 2⟩ :=
    Step.finish _ 1 (raceFetch 1) (by simp [Function.update_same])
  have hthreads : Function.update (Function.update (Function.update (Function.update
      (Function.update (Function.update (initState 2).threads 0 .waitW) 1 .waitW)
      0 (.inFetch (raceFetch 0))) 0 (.done (raceFetch 0)))
      1 (.inFetch (raceFetch 1))) 1 (.done (raceFetch 1))
      = ![.done (raceFetch 0), .done (raceFetch 1)] := by
    funext i
    fin_cases i <;>
      simp [initState, Function.update_same, Function.update_noteq]
  have chain := Reach.tail (Reach.tail (Reach.tail (Reach.tail (Reach.tail
    (Reach.tail (Reach.refl) s1) s2) s3) s4) s5) s6
  rwa [hthreads] at chain

/-- C6 amended: for every provider state reachable by any number of
concurrent `token()` callers from an empty cache, at most one refresh HTTP
exchange is in flight at any time (the fetch runs under the held write
lock); however, callers that all observed a missing or expired entry each
perform their own serial fetch rather than sharing one result. -/
theorem single_flight_mutex {n : Nat} (fetchResult : Nat → Token)
    (s : SysState n) (i j : Fin n) (tok tok' : Token)
    (hreach : Reach fetchResult (initState n) s)
    (hi : s.threads i = .inFetch tok) (hj : s.threads j = .inFetch tok') :
    i = j :=
  (reach_mutexInv hreach).2 i j tok tok' hi hj

/-- Witness for C6's amended theorem: the three-step prefix of the race in
which caller 0 is the unique fetcher. -/
theorem single_flight_mutex_witness : (0 : Fin 2) = (0 : Fin 2) :=
  single_flight_mutex raceFetch
    ⟨Function.update (Function.update (Function.update (initState 2).threads 0 .waitW)
        1 .waitW) 0 (.inFetch (raceFetch 0)), none, true, 1⟩
    0 0 (raceFetch 0) (raceFetch 0)
    (Reach.tail (Reach.tail (Reach.tail (Reach.refl)
      (Step.readMiss _ 0 rfl rfl))
      (Step.readMiss _ 1 (by simp [initState, Function.update_noteq]) rfl))
      (Step.acquire _ 0 (by simp [Function.update_noteq]) rfl))
    (by simp [Function.update_same]) (by simp [Function.update_same])

/-! ## The gcloud CLI provider (src/gcloud_authorized_user.rs)

Subprocess invocation (`Command::output`) is an explicit outcome parameter.
`String::from_utf8` is modelled by a strict UTF-8 decoder (rejecting
truncated, overlong, surrogate and out-of-range sequences). -/

/-- A strict UTF-8 decoder over byte lists (`String::from_utf8`): `none` on
any invalid sequence. -/
def utf8Decode : List Nat → Option (List Char)
  | [] => some []
  | b :: rest =>
    if b < 128 then (utf8Decode rest).map (fun cs => Char.ofNat b :: cs)
    else if b < 194 then none
    else if b < 224 then
      match rest with
      | c :: rest2 =>
        if 128 ≤ c ∧ c < 192 then
          (utf8Decode rest2).map (fun cs => Char.ofNat ((b - 192) * 64 + (c - 128)) :: cs)
        else none
      | [] => none
    else if b < 240 then
      match rest with
      | c :: d :: rest2 =>
        if (128 ≤ c ∧ c < 192) ∧ (128 ≤ d ∧ d < 192) ∧
            2048 ≤ (b - 224) * 4096 + (c - 128) * 64 + (d - 128) ∧
            ¬ (55296 ≤ (b - 224) * 4096 + (c - 128) * 64 + (d - 128) ∧
               (b - 224) * 4096 + (c - 128) * 64 + (d - 128) < 57344) then
          (utf8Decode rest2).map
            (fun cs => Char.ofNat ((b - 224) * 4096 + (c - 128) * 64 + (d - 128)) :: cs)
        else none
      | _ => none
    else if b < 245 then
      match rest with
      | c :: d :: e :: rest2 =>
        if (128 ≤ c ∧ c < 192) ∧ (128 ≤ d ∧ d < 192) ∧ (128 ≤ e ∧ e < 192) ∧
            65536 ≤ (b - 240) * 262144 + (c - 128) * 4096 + (d - 128) * 64 + (e - 128) ∧
            (b - 240) * 262144 + (c - 128) * 4096 + (d - 128) * 64 + (e - 128) < 1114112 then
          (utf8Decode rest2).map
            (fun cs => Char.ofNat
              ((b - 240) * 262144 + (c - 128) * 4096 + (d - 128) * 64 + (e - 128)) :: cs)
        else none
      | _ => none
    else none

/-- The result of `Command::output()`: exit-status success flag and stdout
bytes. -/
structure CmdOutput where
  success : Bool
  stdout : List Nat
deriving DecidableEq, Repr

/-- The trailing-whitespace pruning loop of `run`
(src/gcloud_authorized_user.rs:71-73): pop while the last byte is space, CR
or LF. -/
def trimTrailingWs (bytes : List Nat) : List Nat :=
  (bytes.reverse.dropWhile (fun b => b = 32 ∨ b = 13 ∨ b = 10)).reverse

/-- `run` (src/gcloud_authorized_user.rs:61-76): spawn failures and non-zero
exits are errors; otherwise trailing whitespace is pruned and the stdout
must be valid UTF-8. -/
def runGcloud (output : Except IoErr CmdOutput) : Except Error String :=
  match output with
  | .error e => .error (.io "failed to run `gcloud`" e)
  | .ok o =>
    if o.success then
      match utf8Decode (trimTrailingWs o.stdout) with
      | some cs => .ok (String.mk cs)
      | none => .error (.str "output from `gcloud` is not UTF-8")
    else .error (.str "running `gcloud` command failed")

/-- `DEFAULT_TOKEN_DURATION` (src/gcloud_authorized_user.rs:87). -/
def DEFAULT_TOKEN_DURATION : Int := 3600

/-- The `GCloudAuthorizedUser` provider state
(src/gcloud_authorized_user.rs:13-17). -/
structure GCloudAuthorizedUser where
  project_id : Option String
  token : Token
deriving DecidableEq, Repr

/-- `GCloudAuthorizedUser::new` (src/gcloud_authorized_user.rs:21-29): the
token-printing command's failure aborts construction (`?`), while the
project-id command's result is collapsed with `.ok()`, silently discarding
its error. `fetch_token` (lines 32-37) wraps the token text with the default
3600 s duration at the ambient instant `now`. -/
def gcloudNew (tokenOutput projectOutput : Except IoErr CmdOutput) (now : Int) :
    Except Error GCloudAuthorizedUser :=
  match runGcloud tokenOutput with
  | .error e => .error e
  | .ok s =>
    .ok { project_id := (runGcloud projectOutput).toOption
          token := Token.from_string s DEFAULT_TOKEN_DURATION now }

/-- `GCloudAuthorizedUser::project_id` (src/gcloud_authorized_user.rs:54-58). -/
def gcloudProjectId (g : GCloudAuthorizedUser) : Except Error String :=
  match g.project_id with
  | some p => .ok p
  | none => .error (.str "failed to get project ID from `gcloud`")

/-! # C10 -/

/-- C10: whenever the access-token command succeeds, `new` succeeds — even
if the project-id command fails or prints non-UTF-8 — holding the fetched
token with the 3600 s default duration and the project-id outcome collapsed
to an `Option`; when the project-id command failed, the discarded error
surfaces only later, as the fixed error from `project_id()`. -/
theorem gcloud_new_discards_project_error
    (tokenOutput projectOutput : Except IoErr CmdOutput) (now : Int) (s : String)
    (h : runGcloud tokenOutput = .ok s) :
    gcloudNew tokenOutput projectOutput now =
      .ok { project_id := (runGcloud projectOutput).toOption
            token := Token.from_string s DEFAULT_TOKEN_DURATION now } ∧
    (∀ e, runGcloud projectOutput = .error e →
      gcloudNew tokenOutput projectOutput now =
        .ok { project_id := none
              token := Token.from_string s DEFAULT_TOKEN_DURATION now } ∧
      gcloudProjectId
          { project_id := none, token := Token.from_string s DEFAULT_TOKEN_DURATION now }
        = .error (.str "failed to get project ID from `gcloud`")) := by
  refine ⟨?_, fun e he => ⟨?_, rfl⟩⟩
  · unfold gcloudNew
    rw [h]
  · unfold gcloudNew
    rw [h, he]
    rfl

/-- Witness for C10: the token command prints `"tok\n"` (trimmed to `tok`),
the project command exits zero but prints the invalid UTF-8 byte `0xFF`;
construction succeeds with no project id and `project_id()` alone errors. -/
theorem gcloud_new_discards_project_error_witness :
    gcloudNew (.ok ⟨true, [116, 111, 107, 10]⟩) (.ok ⟨true, [255]⟩) 0 =
      .ok { project_id := (runGcloud (.ok ⟨true, [255]⟩)).toOption
            token := Token.from_string "tok" DEFAULT_TOKEN_DURATION 0 } ∧
    gcloudNew (.ok ⟨true, [116, 111, 107, 10]⟩) (.ok ⟨true, [255]⟩) 0 =
      .ok { project_id := none
            token := Token.from_string "tok" DEFAULT_TOKEN_DURATION 0 } ∧
    gcloudProjectId
        { project_id := none, token := Token.from_string "tok" DEFAULT_TOKEN_DURATION 0 }
      = .error (.str "failed to get project ID from `gcloud`") :=
  ⟨(gcloud_new_discards_project_error (.ok ⟨true, [116, 111, 107, 10]⟩)
      (.ok ⟨true, [255]⟩) 0 "tok" rfl).1,
   ((gcloud_new_discards_project_error (.ok ⟨true, [116, 111, 107, 10]⟩)
      (.ok ⟨true, [255]⟩) 0 "tok" rfl).2
      (.str "output from `gcloud` is not UTF-8") rfl).1,
   ((gcloud_new_discards_project_error (.ok ⟨true, [116, 111, 107, 10]⟩)
      (.ok ⟨true, [255]⟩) 0 "tok" rfl).2
      (.str "output from `gcloud` is not UTF-8") rfl).2⟩

end GcpAuth
